import Mathlib

/-!
Shallow embedding of the Tab session controller
(`packages/playwright/src/mcp/browser/tab.ts`) and of the network-request
renderer (`packages/playwright/src/mcp/browser/tools/network.ts`).

Pure string utilities model the JavaScript string operations used by the
source (`String.prototype.includes`, `toLowerCase`, `substring`, `length`);
they work on the character list of a `String` so that every definition is
executable and kernel-reducible.
-/

namespace Spec2Proof

/-- Models JavaScript `s.includes(pat)`: `pat` occurs as a contiguous
substring of `s` (case-sensitive). -/
def strIncludes (s pat : String) : Bool :=
  go s.data
where
  go : List Char → Bool
    | [] => pat.data.isEmpty
    | c :: cs => pat.data.isPrefixOf (c :: cs) || go cs

/-- Models JavaScript `s.toLowerCase()` (ASCII range, as used by the source). -/
def strToLower (s : String) : String :=
  String.mk (s.data.map Char.toLower)

/-- Models JavaScript `s.length`. -/
def strLen (s : String) : Nat :=
  s.data.length

/-- Models JavaScript `s.substring(0, n)`. -/
def strTake (s : String) (n : Nat) : String :=
  String.mk (s.data.take n)

/-- Models JavaScript string concatenation. -/
def strAppend (a b : String) : String :=
  String.mk (a.data ++ b.data)

/-! ### Association-list model of the JavaScript `Map<string, V>`

`Map.set` on an existing key overwrites the value in place (insertion order
is kept); on a fresh key it appends.  `Map.get` returns the value or
nothing.  `mapUpdate` models the source pattern
`const data = map.get(k); if (data) { mutate data }`. -/

def mapGet {α : Type} : List (String × α) → String → Option α
  | [], _ => none
  | (k', v) :: rest, k => if k' = k then some v else mapGet rest k

def mapSet {α : Type} : List (String × α) → String → α → List (String × α)
  | [], k, v => [(k, v)]
  | (k', v') :: rest, k, v =>
      if k' = k then (k, v) :: rest else (k', v') :: mapSet rest k v

def mapUpdate {α : Type} : List (String × α) → String → (α → α) → List (String × α)
  | [], _, _ => []
  | (k', v') :: rest, k, f =>
      if k' = k then (k', f v') :: rest else (k', v') :: mapUpdate rest k f

theorem mapGet_mapSet_self {α : Type} (m : List (String × α)) (k : String) (v : α) :
    mapGet (mapSet m k v) k = some v := by
  induction m with
  | nil => simp [mapSet, mapGet]
  | cons hd tl ih =>
      obtain ⟨k', v'⟩ := hd
      by_cases h : k' = k <;> simp [mapSet, mapGet, h, ih]

theorem mapGet_mapUpdate_self {α : Type} (m : List (String × α)) (k : String) (f : α → α) :
    mapGet (mapUpdate m k f) k = (mapGet m k).map f := by
  induction m with
  | nil => simp [mapUpdate, mapGet]
  | cons hd tl ih =>
      obtain ⟨k', v'⟩ := hd
      by_cases h : k' = k <;> simp [mapUpdate, mapGet, h, ih]

/-! ### Network journal (`Tab._requests`, tab.ts lines 203–231)

Request and response driver handles are opaque; we model them as `Nat`
identifiers.  `NetworkRequestData` mirrors the TypeScript type of the same
name: `{ request, response?, status: 'pending'|'finished'|'failed', error? }`. -/

inductive RequestStatus
  | pending
  | finished
  | failed
  deriving DecidableEq, Repr

structure NetworkRequestData where
  request : Nat
  response : Option Nat
  status : RequestStatus
  error : Option String
  deriving DecidableEq, Repr

/-- The browser-driver network events consumed by the Tab.  A
`requestFailed` event carries `request.failure()?.errorText`, which the
driver may omit, hence `Option String`. -/
inductive NetEvent
  | request (url : String) (req : Nat)
  | response (url : String) (rsp : Nat)
  | requestFinished (url : String)
  | requestFailed (url : String) (errorText : Option String)
  deriving DecidableEq, Repr

/-- One step of the four `page.on(...)` network handlers:
`_handleRequest` overwrites the record for the URL with a fresh pending one;
`_handleResponse` attaches the response if a record exists;
`_handleRequestFinished` / `_handleRequestFailed` update the status (and
error text) if a record exists, and are silently ignored otherwise. -/
def handleNetEvent (m : List (String × NetworkRequestData)) :
    NetEvent → List (String × NetworkRequestData)
  | .request url req =>
      mapSet m url { request := req, response := none, status := .pending, error := none }
  | .response url rsp =>
      mapUpdate m url fun d => { d with response := some rsp }
  | .requestFinished url =>
      mapUpdate m url fun d => { d with status := .finished }
  | .requestFailed url err =>
      mapUpdate m url fun d => { d with status := .failed, error := err }

/-- Processing a whole event sequence, in arrival order. -/
def processNetEvents (m : List (String × NetworkRequestData)) (evs : List NetEvent) :
    List (String × NetworkRequestData) :=
  evs.foldl handleNetEvent m

/-- C1. For every request URL, processing `request` → `response` →
`requestfinished` yields a record with status `finished` and a populated
response handle; substituting `requestfailed` (whose driver failure carries
error text `e`) yields status `failed` with error text populated — and the
failed outcome does not require a response: the same holds when no
`response` event ever arrived. -/
theorem network_lifecycle_finished_failed (m : List (String × NetworkRequestData))
    (u : String) (req rsp : Nat) (e : String) :
    mapGet (processNetEvents m [.request u req, .response u rsp, .requestFinished u]) u =
      some { request := req, response := some rsp, status := .finished, error := none } ∧
    mapGet (processNetEvents m [.request u req, .response u rsp, .requestFailed u (some e)]) u =
      some { request := req, response := some rsp, status := .failed, error := some e } ∧
    mapGet (processNetEvents m [.request u req, .requestFailed u (some e)]) u =
      some { request := req, response := none, status := .failed, error := some e } := by
  refine ⟨?_, ?_, ?_⟩ <;>
    simp [processNetEvents, handleNetEvent, mapGet_mapUpdate_self, mapGet_mapSet_self]

/-- C9 counterexample. The claim "once finished or failed the status is
terminal" fails on the code: after `request` → `requestfinished` the record
for `"https://a/x"` has status `finished`, yet a subsequently processed
`requestfailed` event for the same URL overwrites the status with `failed`. -/
theorem network_status_not_terminal_cex :
    (mapGet (processNetEvents [] [.request "https://a/x" 0, .requestFinished "https://a/x"])
        "https://a/x").map NetworkRequestData.status = some .finished ∧
    (mapGet (processNetEvents [] [.request "https://a/x" 0, .requestFinished "https://a/x",
        .requestFailed "https://a/x" (some "boom")])
        "https://a/x").map NetworkRequestData.status = some .failed := by
  constructor <;> rfl

/-- C9 amended. A record's status is not terminal: whatever the current
record `d` for a URL is (in particular finished or failed), a subsequent
`response` event only attaches the response handle and never changes the
status, while a subsequent `request` event resets the record to a fresh
pending one, `requestfinished` sets the status to finished, and
`requestfailed` sets it to failed (with the event's error text). -/
theorem network_status_overwritten (m : List (String × NetworkRequestData))
    (u : String) (d : NetworkRequestData) (req rsp : Nat) (e : Option String)
    (h : mapGet m u = some d) :
    mapGet (handleNetEvent m (.response u rsp)) u = some { d with response := some rsp } ∧
    mapGet (handleNetEvent m (.request u req)) u =
      some { request := req, response := none, status := .pending, error := none } ∧
    mapGet (handleNetEvent m (.requestFinished u)) u = some { d with status := .finished } ∧
    mapGet (handleNetEvent m (.requestFailed u e)) u =
      some { d with status := .failed, error := e } := by
  refine ⟨?_, ?_, ?_, ?_⟩ <;>
    simp [handleNetEvent, mapGet_mapUpdate_self, mapGet_mapSet_self, h]

/-- A concrete finished record, used by the witness below. -/
def finishedRecord : NetworkRequestData :=
  { request := 7, response := some 8, status := .finished, error := none }

/-- Witness for `network_status_overwritten` at a concrete finished record. -/
theorem network_status_overwritten_witness :
    mapGet (handleNetEvent [("u", finishedRecord)] (.requestFailed "u" (some "late"))) "u" =
      some { finishedRecord with status := .failed, error := some "late" } :=
  (network_status_overwritten [("u", finishedRecord)] "u" finishedRecord
    0 0 (some "late") rfl).2.2.2

/-! ### Modal states and the ActionRacer (`Tab._raceAgainstModalStates`,
tab.ts lines 329–344)

A `ModalState` is a dialog or file-chooser interruption; the underlying
driver object is opaque and identified by a `Nat`.  The race is modelled as
a small-step machine over the interleaving of the two asynchronous
happenings it observes: a `modalState` emission (from `setModalState`,
which pushes onto the stack and emits) and the resolution of the supplied
action.  `listenerActive` tracks the one-shot (`once`) listener;
`result` is the value the `Promise.race` has settled with, if any —
once some, it can never change (a settled promise stays settled). -/

inductive ModalStateType
  | dialog
  | fileChooser
  deriving DecidableEq, Repr

structure ModalState where
  type : ModalStateType
  description : String
  underlying : Nat
  clearedBy : String
  deriving DecidableEq, Repr

inductive RaceEvent
  | pushModal (m : ModalState)
  | actionDone
  deriving DecidableEq, Repr

structure RaceState where
  stack : List ModalState
  listenerActive : Bool
  result : Option (List ModalState)
  deriving DecidableEq, Repr

/-- One step of the race.  `pushModal` appends to the modal stack and, if
the one-shot listener is still registered, deregisters it and resolves the
manual promise with `[m]`; if the race is already settled the resolution is
a no-op.  `actionDone` runs the action's `.then` continuation: it
deregisters the listener and offers `[]` to the race, which is kept only if
the race has not settled yet. -/
def raceStep (s : RaceState) : RaceEvent → RaceState
  | .pushModal m =>
      if s.listenerActive then
        { stack := s.stack ++ [m], listenerActive := false,
          result := match s.result with | some r => some r | none => some [m] }
      else
        { s with stack := s.stack ++ [m] }
  | .actionDone =>
      { s with listenerActive := false,
               result := match s.result with | some r => some r | none => some [] }

/-- `_raceAgainstModalStates`: if the stack is already non-empty the race
returns it at once, without starting the action or registering a listener;
otherwise the listener is registered and the schedule of happenings is
processed in order. -/
def raceRun (initStack : List ModalState) (sched : List RaceEvent) : RaceState :=
  if initStack.isEmpty then
    sched.foldl raceStep { stack := initStack, listenerActive := true, result := none }
  else
    sched.foldl raceStep { stack := initStack, listenerActive := false, result := some initStack }

theorem raceStep_result_frozen (s : RaceState) (e : RaceEvent) (r : List ModalState)
    (h : s.result = some r) : (raceStep s e).result = some r := by
  cases e with
  | pushModal m => by_cases hl : s.listenerActive <;> simp [raceStep, hl, h]
  | actionDone => simp [raceStep, h]

theorem raceRun_result_frozen (sched : List RaceEvent) (s : RaceState) (r : List ModalState)
    (h : s.result = some r) : (sched.foldl raceStep s).result = some r := by
  induction sched generalizing s with
  | nil => simpa using h
  | cons e rest ih => exact ih _ (raceStep_result_frozen s e r h)

theorem raceStep_listener_off (s : RaceState) (e : RaceEvent)
    (h : s.listenerActive = false) : (raceStep s e).listenerActive = false := by
  cases e with
  | pushModal m => simp [raceStep, h]
  | actionDone => simp [raceStep]

theorem raceRun_listener_off (sched : List RaceEvent) (s : RaceState)
    (h : s.listenerActive = false) : (sched.foldl raceStep s).listenerActive = false := by
  induction sched generalizing s with
  | nil => simpa using h
  | cons e rest ih => exact ih _ (raceStep_listener_off s e h)

/-- C2. Starting from an empty modal-state stack, if a modal state `m` is
pushed strictly before the supplied action resolves (the push is the first
happening; the action's completion, if any, lies in `rest`), the race
settles with exactly `[m]`, whatever happens afterwards — in particular the
action's own eventual completion in `rest` is not surfaced to the caller. -/
theorem race_modal_first (m : ModalState) (rest : List RaceEvent) :
    (raceRun [] (.pushModal m :: rest)).result = some [m] := by
  have h1 : (raceStep { stack := [], listenerActive := true, result := none }
      (.pushModal m)).result = some [m] := by simp [raceStep]
  simpa [raceRun] using raceRun_result_frozen rest _ [m] h1

/-- C3. Starting from an empty modal-state stack, if the action resolves
before any modal state arrives (its completion is the first happening),
the race settles with the empty modal-state sequence, the one-shot listener
is deregistered already at that very step, and any modal states pushed
afterwards (in `rest`) neither alter the settled result nor find the
listener registered. -/
theorem race_action_first (rest : List RaceEvent) :
    (raceRun [] (.actionDone :: rest)).result = some [] ∧
    (raceRun [] [.actionDone]).listenerActive = false ∧
    (raceRun [] (.actionDone :: rest)).listenerActive = false := by
  have h1 : (raceStep { stack := [], listenerActive := true, result := none }
      .actionDone) = { stack := [], listenerActive := false, result := some [] } := by
    simp [raceStep]
  refine ⟨?_, by simp [raceRun, raceStep], ?_⟩
  · simpa [raceRun, h1] using raceRun_result_frozen rest _ [] (by simp [h1])
  · simpa [raceRun, h1] using raceRun_listener_off rest _ (by simp [h1])

/-! ### NavigationGuard (`Tab.navigate`, tab.ts lines 260–285)

`navigate` first issues `page.goto(url, { waitUntil: 'domcontentloaded' })`.
The embedding abstracts the asynchronous environment into two inputs: the
outcome of `goto` (`none` for success, `some msg` for a rejection with
message `msg`) and whether the previously-registered `download` listener
fires within the 3000 ms grace period (`downloadWithinGrace`).  On the
success path the code merely caps the wait for the `load` lifecycle event
(a timeout there is swallowed), so the call still resolves. -/

/-- Grace period (ms) waited for the download event after a suspicious
`goto` failure. -/
def downloadGraceMs : Nat := 3000

/-- Settle period (ms) waited after the download arrived so other
`download` listeners are notified first. -/
def downloadSettleMs : Nat := 500

inductive NavResult
  | success
  | failure (msg : String)
  deriving DecidableEq, Repr

/-- The source's test for "this load failure might actually be a download":
`e.message.includes('net::ERR_ABORTED') || e.message.includes('Download is starting')`. -/
def mightBeDownload (msg : String) : Bool :=
  strIncludes msg "net::ERR_ABORTED" || strIncludes msg "Download is starting"

def navigate (gotoError : Option String) (downloadWithinGrace : Bool) : NavResult :=
  match gotoError with
  | none => .success
  | some msg =>
      if mightBeDownload msg then
        if downloadWithinGrace then .success else .failure msg
      else .failure msg

/-- C4. If the page load fails with a message matching the
aborted-connection / "Download is starting" patterns, then: a download
arriving within the grace period makes `navigate` resolve without error,
and no download within the grace period makes it re-raise the original
error.  A failure matching neither pattern is re-raised immediately,
whether or not a download would have arrived. -/
theorem navigate_download_heuristic (msg : String) :
    (mightBeDownload msg = true →
      navigate (some msg) true = .success ∧ navigate (some msg) false = .failure msg) ∧
    (mightBeDownload msg = false → ∀ d : Bool, navigate (some msg) d = .failure msg) := by
  constructor
  · intro h
    exact ⟨by simp [navigate, h], by simp [navigate, h]⟩
  · intro h d
    simp [navigate, h]

/-- Witness for `navigate_download_heuristic` on concrete driver messages. -/
theorem navigate_download_heuristic_witness :
    (navigate (some "net::ERR_ABORTED at https://a/file.zip") true = .success ∧
      navigate (some "net::ERR_ABORTED at https://a/file.zip") false =
        .failure "net::ERR_ABORTED at https://a/file.zip") ∧
    navigate (some "net::ERR_CONNECTION_REFUSED") true =
      .failure "net::ERR_CONNECTION_REFUSED" :=
  ⟨(navigate_download_heuristic "net::ERR_ABORTED at https://a/file.zip").1 (by decide),
    (navigate_download_heuristic "net::ERR_CONNECTION_REFUSED").2 (by decide) true⟩

/-! ### Console journal and noise filter
(`Tab._shouldCaptureConsoleMessage` / `_handleConsoleMessage`,
tab.ts lines 169–201)

A `ConsoleMessage` carries its type, its `text` and the long-form rendering
produced by its `toString()` (`rendered` here).  The filter lowercases both
and drops the entry when any deny-listed substring occurs in either. -/

structure ConsoleMessage where
  type : Option String
  text : String
  rendered : String
  deriving DecidableEq, Repr

/-- The fixed deny-list (`nextJsPatterns` in the source). -/
def nextJsPatterns : List String :=
  ["_next/static/", "webpack-hmr", "hot-update", "[hmr]", "[fast refresh]",
    "webpack://", "static/chunks/", "static/css/", "static/media/"]

def shouldCaptureConsoleMessage (m : ConsoleMessage) : Bool :=
  let text := strToLower m.text
  let location := strToLower m.rendered
  !(nextJsPatterns.any fun p => strIncludes text p || strIncludes location p)

structure DownloadEntry where
  download : Nat
  finished : Bool
  outputFile : String
  deriving DecidableEq, Repr

/-- The Tab state visible to the claims: current page url/title, the two
console journals, the modal-state stack and the download list. -/
structure TabState where
  url : String
  title : String
  consoleMessages : List ConsoleMessage
  recentConsoleMessages : List ConsoleMessage
  modalStates : List ModalState
  downloads : List DownloadEntry
  deriving DecidableEq, Repr

/-- `_handleConsoleMessage`: filtered-out messages are dropped entirely,
all others are appended to both the full and the recent journal. -/
def handleConsoleMessage (s : TabState) (m : ConsoleMessage) : TabState :=
  if shouldCaptureConsoleMessage m then
    { s with consoleMessages := s.consoleMessages ++ [m],
             recentConsoleMessages := s.recentConsoleMessages ++ [m] }
  else s

/-- C8. An incoming console/page-error entry containing (case-insensitively)
any deny-listed substring in its text or its long-form rendering is excluded
from both journals; an entry matching none of the substrings is appended to
both. -/
theorem console_noise_filter (s : TabState) (m : ConsoleMessage) :
    ((∃ p ∈ nextJsPatterns, strIncludes (strToLower m.text) p = true ∨
        strIncludes (strToLower m.rendered) p = true) →
      (handleConsoleMessage s m).consoleMessages = s.consoleMessages ∧
      (handleConsoleMessage s m).recentConsoleMessages = s.recentConsoleMessages) ∧
    ((∀ p ∈ nextJsPatterns, strIncludes (strToLower m.text) p = false ∧
        strIncludes (strToLower m.rendered) p = false) →
      (handleConsoleMessage s m).consoleMessages = s.consoleMessages ++ [m] ∧
      (handleConsoleMessage s m).recentConsoleMessages = s.recentConsoleMessages ++ [m]) := by
  constructor
  · rintro ⟨p, hp, hor⟩
    have hcap : shouldCaptureConsoleMessage m = false := by
      simp only [shouldCaptureConsoleMessage, Bool.not_eq_false', List.any_eq_true]
      exact ⟨p, hp, by rcases hor with h | h <;> simp [h]⟩
    simp [handleConsoleMessage, hcap]
  · intro h
    have hcap : shouldCaptureConsoleMessage m = true := by
      simp only [shouldCaptureConsoleMessage, Bool.not_eq_true', List.any_eq_false]
      intro p hp
      have := h p hp
      simp [this.1, this.2]
    simp [handleConsoleMessage, hcap]

/-- Witness for `console_noise_filter`: a hot-update message is excluded,
an ordinary message is appended to both journals. -/
theorem console_noise_filter_witness :
    (handleConsoleMessage
        { url := "https://a/x", title := "t", consoleMessages := [],
          recentConsoleMessages := [], modalStates := [], downloads := [] }
        { type := some "log", text := "Loading Hot-Update chunk",
          rendered := "[LOG] Loading Hot-Update chunk @ https://a/x:1" }).consoleMessages = [] ∧
    (handleConsoleMessage
        { url := "https://a/x", title := "t", consoleMessages := [],
          recentConsoleMessages := [], modalStates := [], downloads := [] }
        { type := some "log", text := "hello",
          rendered := "[LOG] hello @ https://a/x:1" }).recentConsoleMessages =
      [{ type := some "log", text := "hello", rendered := "[LOG] hello @ https://a/x:1" }] :=
  ⟨((console_noise_filter _ _).1 ⟨"hot-update", by decide, Or.inl (by decide)⟩).1,
    ((console_noise_filter _ _).2 (by decide)).2⟩

/-! ### `Tab.captureSnapshot` (tab.ts lines 297–323)

The asynchronous capture is abstracted into: `aria`, the string produced by
`page._snapshotForAI`; `during`, the console events handled while the
capture ran; and `interrupt`, the modal state that won the ActionRacer race
(`none` when the capture action completed first).  On clean completion the
code builds the snapshot with `consoleMessages: []`, then — after the race —
assigns the recent journal into it and empties that journal; this late
assignment is what makes the `during` messages part of the snapshot.  On
interruption `tabSnapshot` stays unset and the fallback object is returned:
empty title/aria/console/downloads carrying only the race's modal states. -/

structure TabSnapshot where
  url : String
  title : String
  ariaSnapshot : String
  modalStates : List ModalState
  consoleMessages : List ConsoleMessage
  downloads : List DownloadEntry
  deriving DecidableEq, Repr

def captureSnapshot (s : TabState) (during : List ConsoleMessage) (aria : String)
    (interrupt : Option ModalState) : TabSnapshot × TabState :=
  let s1 := during.foldl handleConsoleMessage s
  match interrupt with
  | none =>
      ({ url := s1.url, title := s1.title, ariaSnapshot := aria, modalStates := [],
         consoleMessages := s1.recentConsoleMessages, downloads := s1.downloads },
        { s1 with recentConsoleMessages := [] })
  | some m =>
      ({ url := s1.url, title := "", ariaSnapshot := "", modalStates := [m],
         consoleMessages := [], downloads := [] },
        { s1 with modalStates := s1.modalStates ++ [m] })

/-- C5. Uninterrupted capture: the returned snapshot's console list is the
recent journal as it stands after the capture (so it includes the messages
that arrived during the capture), the recent journal is emptied, and the
full session journal is left untouched.  Interrupted capture: the returned
snapshot is empty (blank title and aria snapshot, no console messages, no
downloads) except that it carries the observed modal state, and the recent
journal is not drained. -/
theorem captureSnapshot_spec (s : TabState) (during : List ConsoleMessage)
    (aria : String) (m : ModalState) :
    ((captureSnapshot s during aria none).1.consoleMessages =
        (during.foldl handleConsoleMessage s).recentConsoleMessages ∧
      (captureSnapshot s during aria none).2.recentConsoleMessages = [] ∧
      (captureSnapshot s during aria none).2.consoleMessages =
        (during.foldl handleConsoleMessage s).consoleMessages) ∧
    ((captureSnapshot s during aria (some m)).1.title = "" ∧
      (captureSnapshot s during aria (some m)).1.ariaSnapshot = "" ∧
      (captureSnapshot s during aria (some m)).1.modalStates = [m] ∧
      (captureSnapshot s during aria (some m)).1.consoleMessages = [] ∧
      (captureSnapshot s during aria (some m)).1.downloads = [] ∧
      (captureSnapshot s during aria (some m)).2.recentConsoleMessages =
        (during.foldl handleConsoleMessage s).recentConsoleMessages) := by
  exact ⟨⟨rfl, rfl, rfl⟩, rfl, rfl, rfl, rfl, rfl, rfl⟩

/-! ### `Tab.refLocators` (tab.ts lines 354–364)

The page's current aria-ref snapshot is abstracted as
`env : String → Option String`, mapping a reference id to the selector the
driver resolves it to (`none` when `locator._resolveSelector()` throws for
that ref).  Each per-parameter async closure either fulfills with the
described locator and its rendered selector, or rejects with the
descriptive error.  The batch is collected with `Promise.all`, which is
fail-fast: the first rejection becomes the rejection of the whole batch. -/

structure RefParam where
  element : String
  ref : String
  deriving DecidableEq, Repr

def refNotFoundMessage (r : String) : String :=
  "Ref " ++ r ++ " not found in the current page snapshot. Try capturing new snapshot."

/-- One reference resolution (the body of the `params.map` closure). -/
def resolveRef (env : String → Option String) (p : RefParam) :
    Except String (String × String) :=
  match env p.ref with
  | some sel => .ok (p.element, sel)
  | none => .error (refNotFoundMessage p.ref)

/-- `Promise.all` over already-settled outcomes: all fulfilled gives the
list of values; otherwise the first rejection (in settlement order, which
is list order here) is the batch outcome. -/
def collectAll {α : Type} : List (Except String α) → Except String (List α)
  | [] => .ok []
  | .error e :: _ => .error e
  | .ok a :: rest =>
      match collectAll rest with
      | .ok l => .ok (a :: l)
      | .error e => .error e

def refLocators (env : String → Option String) (params : List RefParam) :
    Except String (List (String × String)) :=
  collectAll (params.map (resolveRef env))

/-- Modelled from the spec: claim C6 describes `Promise.allSettled`-style
behaviour, every pair resolved independently and "returned as its own
settled result".  This definition follows those words, for comparison with
`refLocators` above. -/
def refLocatorsSettled (env : String → Option String) (params : List RefParam) :
    List (Except String (String × String)) :=
  params.map (resolveRef env)

/-- C6 counterexample.  With a snapshot resolving `r1` but not `r2`, the
batch `[("link","r1"), ("button","r2")]` does not yield two settled
results: `refLocators` rejects as a whole with `r2`'s error, and `r1`'s
successful resolution is not surfaced — unlike the per-reference settled
results the claim describes. -/
theorem refLocators_batch_aborts_cex :
    refLocators (fun r => if r = "r1" then some "sel1" else none)
        [{ element := "link", ref := "r1" }, { element := "button", ref := "r2" }] =
      .error "Ref r2 not found in the current page snapshot. Try capturing new snapshot." ∧
    refLocatorsSettled (fun r => if r = "r1" then some "sel1" else none)
        [{ element := "link", ref := "r1" }, { element := "button", ref := "r2" }] =
      [.ok ("link", "sel1"),
        .error "Ref r2 not found in the current page snapshot. Try capturing new snapshot."] := by
  constructor <;> rfl

/-- C6 amended.  Each reference is attempted independently and an
unresolvable reference produces the descriptive not-found error for that
reference; but the batch is collected fail-fast: when every reference
resolves the call returns all resolutions, and when some reference fails
(first failing one `p`, after a resolvable prefix `pre`) the whole call
rejects with `p`'s error and no other result is returned. -/
theorem refLocators_fail_fast (env : String → Option String) :
    (∀ params : List RefParam, (∀ q ∈ params, (env q.ref).isSome) →
      refLocators env params =
        .ok (params.map fun p => (p.element, (env p.ref).getD ""))) ∧
    (∀ (pre : List RefParam) (p : RefParam) (post : List RefParam),
      (∀ q ∈ pre, (env q.ref).isSome) → env p.ref = none →
      refLocators env (pre ++ p :: post) = .error (refNotFoundMessage p.ref)) := by
  constructor
  · intro params h
    induction params with
    | nil => rfl
    | cons q rest ih =>
        obtain ⟨sel, hsel⟩ := Option.isSome_iff_exists.mp (h q (by simp))
        have hrest := ih fun r hr => h r (by simp [hr])
        simp only [refLocators, List.map_cons, collectAll, resolveRef, hsel] at hrest ⊢
        simp [hrest, hsel]
  · intro pre p post hpre hp
    induction pre with
    | nil => simp [refLocators, collectAll, resolveRef, hp]
    | cons q rest ih =>
        obtain ⟨sel, hsel⟩ := Option.isSome_iff_exists.mp (hpre q (by simp))
        have hrest := ih fun r hr => hpre r (by simp [hr])
        simp only [refLocators] at hrest ⊢
        rw [List.cons_append, List.map_cons]
        simp only [resolveRef, hsel, collectAll]
        rw [hrest]

/-- Witness for `refLocators_fail_fast` at a concrete snapshot. -/
theorem refLocators_fail_fast_witness :
    refLocators (fun r => if r = "r1" then some "sel1" else none)
        [{ element := "link", ref := "r1" }] = .ok [("link", "sel1")] ∧
    refLocators (fun r => if r = "r1" then some "sel1" else none)
        [{ element := "link", ref := "r1" }, { element := "button", ref := "r2" },
          { element := "img", ref := "r3" }] =
      .error (refNotFoundMessage "r2") :=
  ⟨(refLocators_fail_fast _).1 [{ element := "link", ref := "r1" }] (by decide),
    (refLocators_fail_fast _).2 [{ element := "link", ref := "r1" }]
      { element := "button", ref := "r2" } [{ element := "img", ref := "r3" }]
      (by decide) (by decide)⟩

/-! ### `Tab.waitForTimeout` / `Tab._javaScriptBlocked`
(tab.ts lines 325–327 and 366–375) -/

/-- The observable effect of `waitForTimeout`: a sleep of `ms` milliseconds
either in the controller's own process (`setTimeout` in Node) or delegated
into the page's script context (`page.evaluate`). -/
inductive SleepAction
  | processSleep (ms : Nat)
  | pageSleep (ms : Nat)
  deriving DecidableEq, Repr

/-- `_javaScriptBlocked`: some modal state of kind `dialog` is active
(file choosers do not block script evaluation). -/
def javaScriptBlocked (modalStates : List ModalState) : Bool :=
  modalStates.any fun st =>
    match st.type with
    | .dialog => true
    | .fileChooser => false

/-- `waitForTimeout(time)`: with a blocking dialog, an in-process sleep of
the requested `time`; otherwise a sleep evaluated in the page whose
duration is the literal `1000` appearing in the source
(`page.evaluate(() => new Promise(f => setTimeout(f, 1000)))` — the `time`
argument is not used on this path). -/
def waitForTimeout (modalStates : List ModalState) (time : Nat) : SleepAction :=
  if javaScriptBlocked modalStates then .processSleep time
  else .pageSleep 1000

/-- A concrete active dialog modal state. -/
def dialogModalState : ModalState :=
  { type := .dialog, description := "\"alert\" dialog with message \"hi\"",
    underlying := 0, clearedBy := "browser_handle_dialog" }

/-- C7, evaluated at the failing input.  With a blocking dialog the
controller sleeps the requested 2500 ms in its own process, as claimed; but
without one the code delegates a sleep of the hardcoded 1000 ms — not the
requested 2500 ms duration — into the page's script context. -/
theorem waitForTimeout_page_sleep_hardcoded :
    waitForTimeout [dialogModalState] 2500 = .processSleep 2500 ∧
    waitForTimeout [] 2500 = .pageSleep 1000 ∧
    waitForTimeout [] 2500 ≠ .pageSleep 2500 := by
  refine ⟨rfl, rfl, by decide⟩

/-! ### Response body rendering (`renderRequest`, network.ts lines 126–135)

The content-type dispatch of the body capture, for a response whose body is
captured.  The body already obtained from the driver (`response.json()`
rendered as a string on the JSON path, `response.text()` on the text path)
is the `body` argument; `strLen`/`strTake`/`strAppend` model the JavaScript
`length`/`substring(0, 5000)`/`+` on it. -/

def renderResponseBody (contentType : String) (body : String) : String :=
  if strIncludes contentType "application/json" then body
  else if strIncludes contentType "text/" || strIncludes contentType "application/javascript" then
    if strLen body > 5000 then strAppend (strTake body 5000) "... (truncated)" else body
  else "<non-text content>"

/-- C10. On the text path (content type not matching `application/json`
but containing `text/` or `application/javascript`), a body longer than
5000 characters is rendered as its first 5000 characters followed by the
literal `... (truncated)`, and a body of at most 5000 characters is
rendered unmodified; on the JSON path the body is rendered unmodified with
no length limit. -/
theorem renderRequest_body_truncation (ct body : String) :
    (strIncludes ct "application/json" = false →
      (strIncludes ct "text/" = true ∨ strIncludes ct "application/javascript" = true) →
      (strLen body > 5000 →
        renderResponseBody ct body = strAppend (strTake body 5000) "... (truncated)") ∧
      (strLen body ≤ 5000 → renderResponseBody ct body = body)) ∧
    (strIncludes ct "application/json" = true → renderResponseBody ct body = body) := by
  constructor
  · intro hj ht
    have ht' : (strIncludes ct "text/" || strIncludes ct "application/javascript") = true := by
      rcases ht with h | h <;> simp [h]
    constructor
    · intro hlen
      simp [renderResponseBody, hj, ht', hlen]
    · intro hlen
      have hnlt : ¬ strLen body > 5000 := Nat.not_lt.mpr hlen
      simp [renderResponseBody, hj, ht', hnlt]
  · intro hj
    simp [renderResponseBody, hj]

/-- A body of 5001 characters, above the 5000-character limit. -/
def longBody : String := String.mk (List.replicate 5001 'a')

/-- Witness for `renderRequest_body_truncation`: a 5001-character text body
is truncated, a short text body and a long JSON body are unmodified. -/
theorem renderRequest_body_truncation_witness :
    renderResponseBody "text/plain" longBody =
      strAppend (strTake longBody 5000) "... (truncated)" ∧
    renderResponseBody "text/plain" "short" = "short" ∧
    renderResponseBody "application/json; charset=utf-8" longBody = longBody :=
  ⟨((renderRequest_body_truncation "text/plain" longBody).1 (by decide)
      (Or.inl (by decide))).1 (by
        show (List.replicate 5001 'a').length > 5000
        rw [List.length_replicate]
        omega),
    ((renderRequest_body_truncation "text/plain" "short").1 (by decide)
      (Or.inl (by decide))).2 (by decide),
    (renderRequest_body_truncation "application/json; charset=utf-8" longBody).2 (by decide)⟩

end Spec2Proof
